import Mathlib

/-
Verification of the Zoho Attendance Manager core against its source.

The embedding models, from the source files:
  - zoho_token_manager.js : refreshAccessToken, getAccessToken
  - attendance_manager.js : checkInOut, setupCronJobs
Network I/O is modelled by passing the outcome a request would produce as an
explicit argument; the durable token file is modelled as explicit state; every
network request a run performs is collected in an output list so that claims
about the number of calls can be stated.
-/

/-- A JSON value as produced by JSON.parse: the subset of JavaScript values this
program manipulates. -/
inductive Json where
  | null
  | bool (b : Bool)
  | num (n : Int)
  | str (s : String)
  | obj (fields : List (String × Json))

/-- A JavaScript value that may also be undefined: none models undefined. -/
abbrev JsValue := Option Json

/-- JavaScript truthiness of a defined value. -/
def Json.truthy : Json → Bool
  | .null => false
  | .bool b => b
  | .num n => n != 0
  | .str s => !s.isEmpty
  | .obj _ => true

/-- JavaScript truthiness, undefined being falsy. -/
def JsValue.truthy : JsValue → Bool
  | none => false
  | some j => j.truthy

/-- JavaScript string coercion as performed by a template literal: an object
renders as [object Object]. -/
def Json.jsToString : Json → String
  | .null => "null"
  | .bool b => if b then "true" else "false"
  | .num n => toString n
  | .str s => s
  | .obj _ => "[object Object]"

/-- Template-literal coercion of a possibly undefined value. -/
def JsValue.jsToString : JsValue → String
  | none => "undefined"
  | some j => j.jsToString

/-- An HTTP response as axios exposes it: status, parsed body, status text. -/
structure HttpResponse where
  status : Nat
  data : Json
  statusText : String

/-- A thrown JavaScript error: its message and, for axios errors produced by a
served non-2xx response, the response object. -/
structure JsError where
  message : String
  response : Option HttpResponse

/-- JavaScript property access: reading a property of null throws a TypeError;
reading a missing property of anything else yields undefined. -/
def Json.getProp : Json → String → Except JsError JsValue
  | .null, p => .error ⟨"Cannot read properties of null (reading " ++ p ++ ")", none⟩
  | .obj fields, p => .ok (fields.lookup p)
  | _, _ => .ok none

/-- What the network does with one request: the server answers with a response,
or the connection fails with no response. -/
inductive NetOutcome where
  | response (r : HttpResponse)
  | failure (message : String)

/-- axios.post with the default validateStatus: a 2xx response resolves, any
other served response rejects with an error carrying the response, and a
connection failure rejects with an error carrying no response. -/
def axiosPost (net : NetOutcome) : Except JsError HttpResponse :=
  match net with
  | .response r =>
      if 200 ≤ r.status ∧ r.status < 300 then .ok r
      else .error ⟨"Request failed with status code " ++ toString r.status, some r⟩
  | .failure m => .error ⟨m, none⟩

/-- The three environment secrets read by zoho_token_manager.js; none models an
unset variable. -/
structure TokenEnv where
  clientId : Option String
  clientSecret : Option String
  refreshToken : Option String

/-- JavaScript truthiness of an environment variable: unset or empty is falsy. -/
def envTruthy : Option String → Bool
  | none => false
  | some s => !s.isEmpty

/-- The state of the token file: missing or unreadable, present but not valid
JSON, or present and parsing to a JSON value. -/
inductive FileContent where
  | absent
  | invalid (raw : String)
  | json (value : Json)

/-- The URL of the Zoho token endpoint in refreshAccessToken. -/
def tokenUrl : String := "https://accounts.zoho.eu/oauth/v2/token"

/-- The form-urlencoded request refreshAccessToken sends to the token
endpoint. -/
structure TokenRequest where
  url : String
  refresh_token : String
  client_id : String
  client_secret : String
  grant_type : String

/-- The token request refreshAccessToken builds from the environment. -/
def tokenRequestOf (env : TokenEnv) : TokenRequest :=
  { url := tokenUrl
    refresh_token := env.refreshToken.getD ("")
    client_id := env.clientId.getD ("")
    client_secret := env.clientSecret.getD ("")
    grant_type := "refresh_token" }

/-- The error message thrown by refreshAccessToken when a secret is missing. -/
def missingEnvMessage : String :=
  "Missing required environment variables: ZOHO_CLIENT_ID, ZOHO_CLIENT_SECRET, ZOHO_REFRESH_TOKEN"

/-- The prefix of every error thrown from the catch block of
refreshAccessToken. -/
def tokenRefreshFailed (detail : String) : String := "Token refresh failed: " ++ detail

/-- JSON.stringify of the object written to the token file: a property whose
value is undefined is dropped by JSON.stringify. -/
def writtenRecord (accessToken : JsValue) : Json :=
  .obj (match accessToken with
    | none => []
    | some j => [("access_token", j)])

/-- The outcome of a run of refreshAccessToken or getAccessToken: the resolved
value or thrown error, the token file afterwards, and the token-endpoint
requests performed. -/
structure TokenResult where
  result : Except JsError JsValue
  store : FileContent
  requests : List TokenRequest

/-- refreshAccessToken from zoho_token_manager.js. Throws a configuration error
before any network call if a secret is missing; posts to the token endpoint; on
a 200 response extracts access_token from the body, overwrites the token file
with the single-property object and resolves with the token; on any other 2xx
response resolves with undefined; a rejected post is caught and rethrown as a
Token refresh failed error built from response.data coerced to a string (or
statusText when data is falsy), the file untouched. -/
def refreshAccessToken (env : TokenEnv) (net : NetOutcome) (store : FileContent) : TokenResult :=
  if !envTruthy env.clientId || !envTruthy env.clientSecret || !envTruthy env.refreshToken then
    { result := .error ⟨missingEnvMessage, none⟩, store := store, requests := [] }
  else
    let req := tokenRequestOf env
    match axiosPost net with
    | .ok response =>
        if response.status = 200 then
          match response.data.getProp ("access_token") with
          | .ok accessToken =>
              { result := .ok accessToken
                store := .json (writtenRecord accessToken)
                requests := [req] }
          | .error e =>
              { result := .error ⟨tokenRefreshFailed e.message, none⟩
                store := store
                requests := [req] }
        else
          { result := .ok none, store := store, requests := [req] }
    | .error e =>
        match e.response with
        | some r =>
            { result := .error ⟨tokenRefreshFailed
                (if r.data.truthy then r.data.jsToString else r.statusText), none⟩
              store := store
              requests := [req] }
        | none =>
            { result := .error ⟨tokenRefreshFailed e.message, none⟩
              store := store
              requests := [req] }

/-- getAccessToken from zoho_token_manager.js. Tries to read and parse the token
file and return its access_token property; any failure in that try block
(missing or unreadable file, invalid JSON, property access throwing on a null
record) is caught and answered by refreshAccessToken. -/
def getAccessToken (env : TokenEnv) (net : NetOutcome) (store : FileContent) : TokenResult :=
  match store with
  | .json value =>
      match value.getProp ("access_token") with
      | .ok accessToken => { result := .ok accessToken, store := store, requests := [] }
      | .error _ => refreshAccessToken env net store
  | _ => refreshAccessToken env net store

/-- The URL of the Zoho attendance endpoint in checkInOut. -/
def attendanceUrl : String := "https://people.zoho.eu/people/api/attendance"

/-- The POST request checkInOut sends to the attendance endpoint: URL, the two
headers, and the form body as an ordered field list. -/
structure AttendanceRequest where
  url : String
  authorization : String
  contentType : String
  body : List (String × String)

/-- The components of new Date() that checkInOut reads, in local time: date is
getDate (1 to 31), month is getMonth (0 to 11), and so on. -/
structure JsDate where
  date : Nat
  month : Nat
  fullYear : Nat
  hours : Nat
  minutes : Nat
  seconds : Nat

/-- String(n).padStart(2, the zero digit) applied to a numeral. -/
def padStart2 (s : String) : String :=
  if 2 ≤ s.length then s
  else if s.length = 1 then "0" ++ s
  else "00" ++ s

/-- The dd/MM/yyyy HH:mm:ss timestamp checkInOut builds from new Date(). -/
def formatCurrentTime (now : JsDate) : String :=
  padStart2 (toString now.date) ++ "/" ++ padStart2 (toString (now.month + 1)) ++ "/"
    ++ toString now.fullYear ++ " " ++ padStart2 (toString now.hours) ++ ":"
    ++ padStart2 (toString now.minutes) ++ ":" ++ padStart2 (toString now.seconds)

/-- The outcome of a run of checkInOut: the resolved response body or thrown
error, the token file afterwards, and the requests performed against each
endpoint. -/
structure CheckInOutResult where
  result : Except JsError Json
  store : FileContent
  tokenRequests : List TokenRequest
  attendanceRequests : List AttendanceRequest

/-- checkInOut from attendance_manager.js. Obtains a token via getAccessToken
(a failure there is caught, logged and rethrown, with no attendance request
sent); builds the timestamp and one form-urlencoded POST carrying dateFormat
and exactly one of checkIn or checkOut plus the Zoho-oauthtoken authorization
header; a resolved post returns response.data, a rejected one is logged and
rethrown. -/
def checkInOut (isCheckIn : Bool) (env : TokenEnv) (tokenNet : NetOutcome)
    (store : FileContent) (now : JsDate) (attendanceNet : NetOutcome) : CheckInOutResult :=
  let tk := getAccessToken env tokenNet store
  match tk.result with
  | .error e =>
      { result := .error e, store := tk.store
        tokenRequests := tk.requests, attendanceRequests := [] }
  | .ok accessToken =>
      let currentTime := formatCurrentTime now
      let req : AttendanceRequest :=
        { url := attendanceUrl
          authorization := "Zoho-oauthtoken " ++ accessToken.jsToString
          contentType := "application/x-www-form-urlencoded"
          body := [("dateFormat", "dd/MM/yyyy HH:mm:ss"),
                   (if isCheckIn then "checkIn" else "checkOut", currentTime)] }
      match axiosPost attendanceNet with
      | .ok response =>
          { result := .ok response.data, store := tk.store
            tokenRequests := tk.requests, attendanceRequests := [req] }
      | .error e =>
          { result := .error e, store := tk.store
            tokenRequests := tk.requests, attendanceRequests := [req] }

/-- Splits a character list at every occurrence of a separator character. -/
def splitOnChar (c : Char) : List Char → List (List Char)
  | [] => [[]]
  | x :: xs =>
      let rest := splitOnChar c xs
      if x = c then [] :: rest
      else
        match rest with
        | [] => [[x]]
        | y :: ys => (x :: y) :: ys

/-- Reads a nonempty all-digit character list as a number. -/
def charsToNat? (cs : List Char) : Option Nat :=
  if cs ≠ [] ∧ cs.all Char.isDigit then
    some (cs.foldl (fun a c => a * 10 + (c.toNat - 48)) 0)
  else none

/-- Modelled from the spec: the node-cron dependency (not under src) validates
one base of a cron field as an asterisk, a single value within the field
bounds, or a range of values within the bounds. -/
def validCronBase (lo hi : Nat) (cs : List Char) : Bool :=
  if cs = ['*'] then true
  else
    match splitOnChar '-' cs with
    | [a] =>
        match charsToNat? a with
        | some n => decide (lo ≤ n) && decide (n ≤ hi)
        | none => false
    | [a, b] =>
        match charsToNat? a, charsToNat? b with
        | some x, some y =>
            decide (lo ≤ x) && decide (x ≤ hi) && decide (lo ≤ y) && decide (y ≤ hi)
              && decide (x ≤ y)
        | _, _ => false
    | _ => false

/-- Modelled from the spec: a cron field item is a base optionally followed by
a numeric step. -/
def validCronItem (lo hi : Nat) (cs : List Char) : Bool :=
  match splitOnChar '/' cs with
  | [base] => validCronBase lo hi base
  | [base, step] => validCronBase lo hi base && (charsToNat? step).isSome
  | _ => false

/-- Modelled from the spec: a cron field is a nonempty comma-separated list of
valid items. -/
def validCronField (lo hi : Nat) (cs : List Char) : Bool :=
  let items := splitOnChar ',' cs
  !items.isEmpty && items.all (validCronItem lo hi)

/-- Modelled from the spec: node-cron syntactic validation of a 5-field (or
6-field, with seconds) cron expression, each field checked against its bounds
(minute 0-59, hour 0-23, day of month 1-31, month 1-12, day of week 0-7). -/
def cronValidate (expr : String) : Bool :=
  match (splitOnChar ' ' expr.toList).filter (fun f => !f.isEmpty) with
  | [mi, h, dom, mon, dow] =>
      validCronField 0 59 mi && validCronField 0 23 h && validCronField 1 31 dom
        && validCronField 1 12 mon && validCronField 0 7 dow
  | [sec, mi, h, dom, mon, dow] =>
      validCronField 0 59 sec && validCronField 0 59 mi && validCronField 0 23 h
        && validCronField 1 31 dom && validCronField 1 12 mon && validCronField 0 7 dow
  | _ => false

/-- An armed scheduled task: its cron expression and time zone. -/
structure CronJob where
  expression : String
  timezone : String

/-- Modelled from the spec: cron.schedule of the node-cron dependency validates
the expression before constructing the task and throws on an invalid one, so a
task is armed only for a valid expression. -/
def cronSchedule (expression timezone : String) (armed : List CronJob) :
    Except JsError (List CronJob) :=
  if cronValidate expression then .ok (armed ++ [⟨expression, timezone⟩])
  else .error ⟨expression ++ " is not a valid cron expression", none⟩

/-- setupCronJobs from attendance_manager.js: arms the check-in schedule, then
the check-out schedule, with the shared time zone; an exception from
cron.schedule propagates. -/
def setupCronJobs (checkinTime checkoutTime timezone : String) :
    Except JsError (List CronJob) :=
  match cronSchedule checkinTime timezone [] with
  | .error e => .error e
  | .ok armed => cronSchedule checkoutTime timezone armed

/-- True when the first list occurs contiguously inside the second. -/
def subSearch (sub : List Char) : List Char → Bool
  | [] => sub.isEmpty
  | c :: cs => sub.isPrefixOf (c :: cs) || subSearch sub cs

/-- True when the string sub occurs as a substring of s; used to state that an
error message carries (or fails to carry) a response detail. -/
def strContains (sub s : String) : Bool := subSearch sub.toList s.toList

/-- A fully configured environment used as a concrete input. -/
def exEnv : TokenEnv := ⟨some ("id"), some ("secret"), some ("refresh")⟩

/-- A token-endpoint outcome issuing a fresh token, used as a concrete input. -/
def freshTokenNet : NetOutcome :=
  .response ⟨200, Json.obj [("access_token", Json.str ("fresh"))], "OK"⟩

/-- A token file holding a previously issued (by now stale) token, used as a
concrete input. -/
def staleStore : FileContent := .json (Json.obj [("access_token", Json.str ("stale"))])

/-- The token-endpoint outcome of the end-to-end failure scenario: HTTP 400
with the parsed body carrying error = invalid_grant. -/
def invalidGrantNet : NetOutcome :=
  .response ⟨400, Json.obj [("error", Json.str ("invalid_grant"))], "Bad Request"⟩

/-- A successful token response whose body also declares a lifetime, used as a
concrete input. -/
def tokenNetWithExpiry : NetOutcome :=
  .response ⟨200, Json.obj [("access_token", Json.str ("tok")), ("expires_in", Json.num 3600)], "OK"⟩

/-- A concrete wall-clock instant. -/
def exDate : JsDate := ⟨5, 2, 2026, 9, 0, 3⟩

/-- C1: failing-input evaluation. With a fully configured environment, a token
endpoint that would issue a fresh token, and a token file holding a stale
token, getAccessToken returns the stale cached value, performs zero
token-endpoint requests, and leaves the file unchanged — it never checks any
expiry, contradicting the refresh-on-expiry property. -/
theorem getAccessToken_returns_stale_without_refresh :
    (getAccessToken exEnv freshTokenNet staleStore).result
        = Except.ok (some (Json.str ("stale")))
      ∧ (getAccessToken exEnv freshTokenNet staleStore).requests = []
      ∧ (getAccessToken exEnv freshTokenNet staleStore).store = staleStore :=
  ⟨rfl, rfl, rfl⟩

/-- C3: if any of the three secrets is missing (unset or empty, hence falsy),
refreshAccessToken throws the configuration error, performs zero
token-endpoint requests, and leaves the token file unchanged. -/
theorem refresh_missing_secret_config_error_no_network
    (env : TokenEnv) (net : NetOutcome) (store : FileContent)
    (h : envTruthy env.clientId = false ∨ envTruthy env.clientSecret = false
          ∨ envTruthy env.refreshToken = false) :
    refreshAccessToken env net store
      = { result := .error ⟨missingEnvMessage, none⟩, store := store, requests := [] } := by
  rcases h with h | h | h <;> simp [refreshAccessToken, h]

/-- C3 witness: with the client identifier unset, refreshAccessToken fails with
the configuration error and performs no network call. -/
theorem refresh_missing_secret_witness :
    refreshAccessToken ⟨none, some ("secret"), some ("refresh")⟩ freshTokenNet staleStore
      = { result := .error ⟨missingEnvMessage, none⟩, store := staleStore, requests := [] } :=
  refresh_missing_secret_config_error_no_network
    ⟨none, some ("secret"), some ("refresh")⟩ freshTokenNet staleStore (Or.inl rfl)

/-- C5: a missing or unreadable token file, and a file whose content is not
valid JSON, are both answered by falling through to refreshAccessToken — the
storage failure is swallowed, never surfaced to the caller. -/
theorem getAccessToken_corrupt_storage_falls_through
    (env : TokenEnv) (net : NetOutcome) (raw : String) :
    getAccessToken env net FileContent.absent = refreshAccessToken env net FileContent.absent
      ∧ getAccessToken env net (FileContent.invalid raw)
          = refreshAccessToken env net (FileContent.invalid raw) :=
  ⟨rfl, rfl⟩

/-- C9: a served token-endpoint response with a 2xx status other than 200 makes
refreshAccessToken resolve with undefined, throw nothing, write nothing, and
leave the file unchanged, after its single token-endpoint request. -/
theorem refresh_2xx_non_200_resolves_undefined
    (env : TokenEnv) (store : FileContent) (r : HttpResponse)
    (h1 : envTruthy env.clientId = true) (h2 : envTruthy env.clientSecret = true)
    (h3 : envTruthy env.refreshToken = true)
    (hlo : 200 ≤ r.status) (hhi : r.status < 300) (hne : r.status ≠ 200) :
    refreshAccessToken env (NetOutcome.response r) store
      = { result := .ok none, store := store, requests := [tokenRequestOf env] } := by
  simp [refreshAccessToken, axiosPost, h1, h2, h3, hlo, hhi, hne]

/-- C9 witness: a 201 response makes refreshAccessToken resolve with undefined
and leave the file unchanged. -/
theorem refresh_2xx_non_200_witness :
    refreshAccessToken exEnv (NetOutcome.response ⟨201, Json.obj [], "Created"⟩) staleStore
      = { result := .ok none, store := staleStore, requests := [tokenRequestOf exEnv] } :=
  refresh_2xx_non_200_resolves_undefined exEnv staleStore ⟨201, Json.obj [], "Created"⟩
    rfl rfl rfl (by decide) (by decide) (by decide)

/-- C10: when the token file parses to a JSON object without an access_token
property, getAccessToken resolves with undefined, performs zero token-endpoint
requests, and leaves the file unchanged; and conversely a defined value is
returned from the cache only when the stored object carries that property with
exactly that value. -/
theorem getAccessToken_missing_field_resolves_undefined
    : (∀ (env : TokenEnv) (net : NetOutcome) (fields : List (String × Json)),
        fields.lookup ("access_token") = none →
        getAccessToken env net (FileContent.json (Json.obj fields))
          = { result := .ok none, store := FileContent.json (Json.obj fields), requests := [] })
      ∧ (∀ (env : TokenEnv) (net : NetOutcome) (fields : List (String × Json)) (j : Json),
          (getAccessToken env net (FileContent.json (Json.obj fields))).result
              = Except.ok (some j) →
          fields.lookup ("access_token") = some j) := by
  constructor
  · intro env net fields h
    simp [getAccessToken, Json.getProp, h]
  · intro env net fields j h
    simpa [getAccessToken, Json.getProp] using h

/-- C10 witness: with the token file holding the empty object, getAccessToken
resolves with undefined, with no token-endpoint request. -/
theorem getAccessToken_missing_field_witness :
    getAccessToken exEnv freshTokenNet (FileContent.json (Json.obj []))
      = { result := .ok none, store := FileContent.json (Json.obj []), requests := [] } :=
  getAccessToken_missing_field_resolves_undefined.1 exEnv freshTokenNet [] rfl

/-- Success path of refreshAccessToken: with all secrets present and a 200
response whose body property access yields the token value, the run resolves
with that value, overwrites the token file with the stringified single-property
record, and performs exactly one token-endpoint request. -/
theorem refresh_success_eq
    (env : TokenEnv) (store : FileContent) (r : HttpResponse) (tok : JsValue)
    (h1 : envTruthy env.clientId = true) (h2 : envTruthy env.clientSecret = true)
    (h3 : envTruthy env.refreshToken = true)
    (hs : r.status = 200)
    (hp : r.data.getProp ("access_token") = .ok tok) :
    refreshAccessToken env (NetOutcome.response r) store
      = { result := .ok tok, store := .json (writtenRecord tok),
          requests := [tokenRequestOf env] } := by
  simp [refreshAccessToken, axiosPost, h1, h2, h3, hs, hp]

/-- C2 counterexample: a successful refresh whose response body declares a
3600 second lifetime leaves the token file holding exactly the one-property
object with the access value — reading any expiry property of the persisted
record yields undefined, so no computed expiry is persisted. -/
theorem refresh_persists_no_expiry_counterexample :
    (refreshAccessToken exEnv tokenNetWithExpiry FileContent.absent).store
        = FileContent.json (Json.obj [("access_token", Json.str ("tok"))])
      ∧ (Json.obj [("access_token", Json.str ("tok"))]).getProp ("expiresAt")
          = Except.ok none
      ∧ (Json.obj [("access_token", Json.str ("tok"))]).getProp ("expires_at")
          = Except.ok none
      ∧ (Json.obj [("access_token", Json.str ("tok"))]).getProp ("expires_in")
          = Except.ok none :=
  ⟨rfl, rfl, rfl, rfl⟩

/-- C2 amended: after every successful refresh the durable storage holds a
single JSON object containing the access value and nothing else; the
issuer-declared lifetime is discarded, so no expiry is persisted. -/
theorem refresh_persists_single_access_value_record
    (env : TokenEnv) (store : FileContent) (r : HttpResponse) (tok : Json)
    (h1 : envTruthy env.clientId = true) (h2 : envTruthy env.clientSecret = true)
    (h3 : envTruthy env.refreshToken = true)
    (hs : r.status = 200)
    (hp : r.data.getProp ("access_token") = .ok (some tok)) :
    (refreshAccessToken env (NetOutcome.response r) store).store
      = FileContent.json (Json.obj [("access_token", tok)]) := by
  rw [refresh_success_eq env store r (some tok) h1 h2 h3 hs hp]
  rfl

/-- C2 witness: a concrete successful refresh leaves the file holding exactly
the single-property record with the issued token. -/
theorem refresh_persists_single_record_witness :
    (refreshAccessToken exEnv tokenNetWithExpiry staleStore).store
      = FileContent.json (Json.obj [("access_token", Json.str ("tok"))]) :=
  refresh_persists_single_access_value_record exEnv staleStore
    ⟨200, Json.obj [("access_token", Json.str ("tok")), ("expires_in", Json.num 3600)], "OK"⟩
    (Json.str ("tok")) rfl rfl rfl rfl rfl

/-- C6: (a) two consecutive successful refreshes leave the token file holding
exactly the second record, the first fully overwritten; (b) a refresh ending in
a network failure leaves the file untouched; (c) a refresh answered by a
non-success (non-2xx) response leaves the file untouched. -/
theorem refresh_overwrites_on_success_preserves_on_failure
    : (∀ (env : TokenEnv) (store : FileContent) (r1 r2 : HttpResponse) (tok1 tok2 : JsValue),
        envTruthy env.clientId = true → envTruthy env.clientSecret = true →
        envTruthy env.refreshToken = true →
        r1.status = 200 → r1.data.getProp ("access_token") = .ok tok1 →
        r2.status = 200 → r2.data.getProp ("access_token") = .ok tok2 →
        (refreshAccessToken env (NetOutcome.response r2)
            ((refreshAccessToken env (NetOutcome.response r1) store).store)).store
          = FileContent.json (writtenRecord tok2))
      ∧ (∀ (env : TokenEnv) (m : String) (store : FileContent),
          (refreshAccessToken env (NetOutcome.failure m) store).store = store)
      ∧ (∀ (env : TokenEnv) (r : HttpResponse) (store : FileContent),
          ¬ (200 ≤ r.status ∧ r.status < 300) →
          (refreshAccessToken env (NetOutcome.response r) store).store = store) := by
  refine ⟨?_, ?_, ?_⟩
  · intro env store r1 r2 tok1 tok2 h1 h2 h3 hs1 hp1 hs2 hp2
    rw [refresh_success_eq env _ r2 tok2 h1 h2 h3 hs2 hp2]
  · intro env m store
    by_cases h : !envTruthy env.clientId || !envTruthy env.clientSecret
        || !envTruthy env.refreshToken
    · simp [refreshAccessToken, h]
    · simp [refreshAccessToken, h, axiosPost]
  · intro env r store h
    by_cases henv : !envTruthy env.clientId || !envTruthy env.clientSecret
        || !envTruthy env.refreshToken
    · simp [refreshAccessToken, henv]
    · simp [refreshAccessToken, henv, axiosPost, h]

/-- C6 witness: concretely, a second successful refresh fully replaces the
record written by the first, and a refresh hitting a connection failure leaves
the previously stored stale record untouched. -/
theorem refresh_overwrite_witness :
    (refreshAccessToken exEnv tokenNetWithExpiry
        ((refreshAccessToken exEnv freshTokenNet FileContent.absent).store)).store
        = FileContent.json (writtenRecord (some (Json.str ("tok"))))
      ∧ (refreshAccessToken exEnv (NetOutcome.failure ("ECONNREFUSED")) staleStore).store
          = staleStore
      ∧ (refreshAccessToken exEnv invalidGrantNet staleStore).store = staleStore :=
  ⟨refresh_overwrites_on_success_preserves_on_failure.1 exEnv FileContent.absent
      ⟨200, Json.obj [("access_token", Json.str ("fresh"))], "OK"⟩
      ⟨200, Json.obj [("access_token", Json.str ("tok")), ("expires_in", Json.num 3600)], "OK"⟩
      (some (Json.str ("fresh"))) (some (Json.str ("tok"))) rfl rfl rfl rfl rfl rfl rfl,
   refresh_overwrites_on_success_preserves_on_failure.2.1 exEnv ("ECONNREFUSED") staleStore,
   refresh_overwrites_on_success_preserves_on_failure.2.2 exEnv
      ⟨400, Json.obj [("error", Json.str ("invalid_grant"))], "Bad Request"⟩ staleStore
      (by decide)⟩

/-- C4 counterexample: when the token endpoint answers 400 with the parsed body
carrying error = invalid_grant, the thrown error message is the template
literal over the response object, which coerces to [object Object]; the
message does not contain the invalid_grant detail, so the error does not carry
the response detail. -/
theorem refresh_invalid_grant_detail_lost :
    (refreshAccessToken exEnv invalidGrantNet FileContent.absent).result
        = Except.error ⟨tokenRefreshFailed ("[object Object]"), none⟩
      ∧ strContains ("invalid_grant") (tokenRefreshFailed ("[object Object]")) = false :=
  ⟨rfl, by decide⟩

/-- C4 amended: on a 400 invalid_grant answer from the token endpoint (with the
token file empty so a refresh is attempted), the check-in action fails with the
credential-refresh error — whose message is Token refresh failed: followed by
the string coercion of the response object, not the detail itself — after one
token-endpoint request, and sends no request at all to the attendance
endpoint, leaving the file unchanged. -/
theorem checkin_invalid_grant_no_attendance_call
    (env : TokenEnv) (now : JsDate) (attendanceNet : NetOutcome)
    (h1 : envTruthy env.clientId = true) (h2 : envTruthy env.clientSecret = true)
    (h3 : envTruthy env.refreshToken = true) :
    checkInOut true env invalidGrantNet FileContent.absent now attendanceNet
      = { result := .error ⟨tokenRefreshFailed ("[object Object]"), none⟩
          store := FileContent.absent
          tokenRequests := [tokenRequestOf env]
          attendanceRequests := [] } := by
  simp [checkInOut, getAccessToken, refreshAccessToken, invalidGrantNet, axiosPost,
    h1, h2, h3, Json.truthy, Json.jsToString]

/-- C4 witness: the concrete end-to-end failure run: error thrown, one token
request, zero attendance requests. -/
theorem checkin_invalid_grant_witness :
    checkInOut true exEnv invalidGrantNet FileContent.absent exDate
        (NetOutcome.response ⟨200, Json.obj [], "OK"⟩)
      = { result := .error ⟨tokenRefreshFailed ("[object Object]"), none⟩
          store := FileContent.absent
          tokenRequests := [tokenRequestOf exEnv]
          attendanceRequests := [] } :=
  checkin_invalid_grant_no_attendance_call exEnv exDate
    (NetOutcome.response ⟨200, Json.obj [], "OK"⟩) rfl rfl rfl

/-- C7: with the token file holding a record whose access_token is the cached
string value, the check-in action performs zero token-endpoint requests and
exactly one POST to the attendance endpoint, form-urlencoded, whose body is
the dateFormat field followed by checkIn set to the current wall-clock time
rendered dd/MM/yyyy HH:mm:ss, with authorization Zoho-oauthtoken followed by
the cached value; a 200 response resolves with its body and no error. -/
theorem checkin_valid_cache_single_post
    (env : TokenEnv) (tokenNet : NetOutcome) (value : Json) (s : String)
    (now : JsDate) (r : HttpResponse)
    (hload : value.getProp ("access_token") = .ok (some (Json.str s)))
    (hs : r.status = 200) :
    checkInOut true env tokenNet (FileContent.json value) now (NetOutcome.response r)
      = { result := .ok r.data
          store := FileContent.json value
          tokenRequests := []
          attendanceRequests :=
            [{ url := attendanceUrl
               authorization := "Zoho-oauthtoken " ++ s
               contentType := "application/x-www-form-urlencoded"
               body := [("dateFormat", "dd/MM/yyyy HH:mm:ss"),
                        ("checkIn", formatCurrentTime now)] }] } := by
  simp [checkInOut, getAccessToken, hload, axiosPost, hs,
    JsValue.jsToString, Json.jsToString]

/-- C7 witness: the concrete end-to-end success run with the cached stale-free
token: one attendance POST with the formatted timestamp and authorization
header, resolving with the response body. -/
theorem checkin_valid_cache_witness :
    checkInOut true exEnv freshTokenNet staleStore exDate
        (NetOutcome.response ⟨200, Json.obj [("status", Json.str ("success"))], "OK"⟩)
      = { result := .ok (Json.obj [("status", Json.str ("success"))])
          store := staleStore
          tokenRequests := []
          attendanceRequests :=
            [{ url := attendanceUrl
               authorization := "Zoho-oauthtoken " ++ "stale"
               contentType := "application/x-www-form-urlencoded"
               body := [("dateFormat", "dd/MM/yyyy HH:mm:ss"),
                        ("checkIn", formatCurrentTime exDate)] }] } :=
  checkin_valid_cache_single_post exEnv freshTokenNet
    (Json.obj [("access_token", Json.str ("stale"))]) ("stale") exDate
    ⟨200, Json.obj [("status", Json.str ("success"))], "OK"⟩ rfl rfl

/-- An accepted cron.schedule call appends exactly the new task, and only for a
syntactically valid expression. -/
theorem cronSchedule_ok (e tz : String) (acc out : List CronJob)
    (h : cronSchedule e tz acc = .ok out) :
    out = acc ++ [⟨e, tz⟩] ∧ cronValidate e = true := by
  by_cases hv : cronValidate e = true
  · refine ⟨?_, hv⟩
    simpa [cronSchedule, hv] using h.symm
  · simp [cronSchedule, hv] at h

/-- C8: the weekday-morning expression validates, the out-of-range expression
does not, and every task armed by setupCronJobs carries an expression that
passed validation — the scheduler never arms with an invalid expression. -/
theorem cron_expressions_validated_before_arming :
    cronValidate ("0 9 * * 1-5") = true
      ∧ cronValidate ("99 99 * * *") = false
      ∧ (∀ (checkinTime checkoutTime timezone : String) (jobs : List CronJob),
          setupCronJobs checkinTime checkoutTime timezone = .ok jobs →
          ∀ j ∈ jobs, cronValidate j.expression = true) := by
  refine ⟨by decide, by decide, ?_⟩
  intro cin cout tz jobs h j hj
  unfold setupCronJobs at h
  cases h1 : cronSchedule cin tz [] with
  | error e => rw [h1] at h; cases h
  | ok armed =>
      rw [h1] at h
      dsimp only at h
      obtain ⟨harmed, hvin⟩ := cronSchedule_ok cin tz [] armed h1
      obtain ⟨hjobs, hvout⟩ := cronSchedule_ok cout tz armed jobs h
      subst hjobs
      subst harmed
      simp only [List.nil_append, List.mem_append, List.mem_singleton] at hj
      rcases hj with hj | hj
      · rw [hj]; exact hvin
      · rw [hj]; exact hvout

/-- C8 witness: the default pair of expressions arms both tasks, and the
armed check-out task passed validation. -/
theorem cron_validated_arming_witness :
    setupCronJobs ("0 9 * * 1-5") ("30 17 * * 1-5") ("Europe/Berlin")
        = Except.ok [⟨"0 9 * * 1-5", "Europe/Berlin"⟩, ⟨"30 17 * * 1-5", "Europe/Berlin"⟩]
      ∧ cronValidate ("30 17 * * 1-5") = true :=
  ⟨rfl, cron_expressions_validated_before_arming.2.2
    ("0 9 * * 1-5") ("30 17 * * 1-5") ("Europe/Berlin")
    [⟨"0 9 * * 1-5", "Europe/Berlin"⟩, ⟨"30 17 * * 1-5", "Europe/Berlin"⟩]
    rfl ⟨"30 17 * * 1-5", "Europe/Berlin"⟩ (by simp)⟩
